import Mathlib

/-!
Verification of `db_to_excel.py` (volamoks/xlsx-to-json-): a one-shot ETL
script that extracts rows from PostgreSQL and uploads them to an Excel Online
table through the Microsoft Graph API, then reconciles counts and sample rows.

The Python source is shallowly embedded below.  Pure helpers (value
normalization, batching, query construction, the range-address computation)
become Lean functions; effectful steps (Graph API calls, cursor queries, file
checks) become explicit traces of events, with the success or failure of each
external call supplied by an environment record.  Two slips in the source are
modelled faithfully and documented at the definition they affect:
`main` references the undefined global `load_to_excel` and the nonexistent
attribute `Config.EXCEL_OUTPUT_FILE` (line 354), and `compare_data` references
`openpyxl` which is never imported (line 286).
-/

namespace DbToExcel

/-- Scalar cell value, as produced by a psycopg2 row or an openpyxl cell:
`vnone` is Python `None`, `vdate` is a `datetime.datetime`/`datetime.date`
(a plain `date` has hour = minute = second = 0), and `vother` is any other
scalar carrying its Python `str(value)` rendering. -/
inductive Value where
  | vnone : Value
  | vdate (year month day hour minute second : Nat) : Value
  | vother (s : String) : Value
deriving DecidableEq

/-- One row of data: positionally aligned scalar values. -/
abbrev Row := List Value

/-- Zero-pad a number to width 2, as the `%m %d %H %M %S` strftime directives do. -/
def pad2 (n : Nat) : String :=
  if n < 10 then "0" ++ toString n else toString n

/-- Zero-pad a number to width 4, as the `%Y` strftime directive does in CPython. -/
def pad4 (n : Nat) : String :=
  if n < 10 then "000" ++ toString n
  else if n < 100 then "00" ++ toString n
  else if n < 1000 then "0" ++ toString n
  else toString n

/-- Python `value.strftime('%Y-%m-%d %H:%M:%S')` (source lines 227 and 301). -/
def strftimeYmdHMS (year month day hour minute second : Nat) : String :=
  pad4 year ++ "-" ++ pad2 month ++ "-" ++ pad2 day ++ " " ++
    pad2 hour ++ ":" ++ pad2 minute ++ ":" ++ pad2 second

/-- The nested helper `normalize_value` of `compare_data` (source lines 297-302):
`None` maps to the empty string, `datetime`/`date` values map to their
`'%Y-%m-%d %H:%M:%S'` rendering, every other value maps to `str(value)`. -/
def normalize_value : Value → String
  | Value.vnone => ""
  | Value.vdate y mo d h mi s => strftimeYmdHMS y mo d h mi s
  | Value.vother s => s

/-- The row-list comprehension `[[normalize_value(item) for item in row] for row in rows]`
applied by `compare_data` to the database sample and to the spreadsheet sample
(source lines 304-311); one single function serves both sides. -/
def normalizeRows (rows : List Row) : List (List String) :=
  rows.map (fun row => row.map normalize_value)

/-- Comparison core of `compare_data` (source lines 286-321), parameterized by
the already-fetched inputs: the COUNT(*) result, the `fetchmany(5)` sample, and
the spreadsheet rows read with `min_row=2` (header skipped).  In the source
these lines are reachable only after `openpyxl.load_workbook` succeeds, which
it never does (see `compare_data` below); the logic is embedded as written. -/
def compareLoaded (dbTotalCount : Nat) (dbFirst5 : List Row) (excelData : List Row) :
    Bool × Bool :=
  let excelRowCount := excelData.length
  let excelFirst5 := excelData.take 5
  (dbTotalCount == excelRowCount, normalizeRows dbFirst5 == normalizeRows excelFirst5)

/-- Observable steps of `compare_data`, in source order: the COUNT(*) query
(line 272), the `fetchmany(5)` sample query (line 278), the `os.path.exists`
check (line 282), and the `openpyxl.load_workbook` call (line 286). -/
inductive CmpStep where
  | runCountQuery : CmpStep
  | runSampleQuery : CmpStep
  | checkFileExists : CmpStep
  | loadWorkbook : CmpStep
deriving DecidableEq

/-- Environment for one `compare_data` call: whether each source-side query
succeeds and whether the destination Excel file exists on disk. -/
structure CmpEnv where
  countOk : Bool
  sampleOk : Bool
  fileExists : Bool
deriving DecidableEq

/-- The function `compare_data` (source lines 251-328) as a trace of steps plus
an outcome; `Except.error ()` is an exception propagating to the caller (both
`except` arms of the source re-`raise`).  A missing file returns
`(False, False)` at line 284, before any workbook access.  When the file does
exist, line 286 evaluates the global name `openpyxl`, which is never imported
(source lines 1-10), so the call raises `NameError` unconditionally and the
comparison logic of `compareLoaded` is never reached. -/
def compare_data (env : CmpEnv) : List CmpStep × Except Unit (Bool × Bool) :=
  if env.countOk = false then
    ([CmpStep.runCountQuery], Except.error ())
  else if env.sampleOk = false then
    ([CmpStep.runCountQuery, CmpStep.runSampleQuery], Except.error ())
  else if env.fileExists = false then
    ([CmpStep.runCountQuery, CmpStep.runSampleQuery, CmpStep.checkFileExists],
      Except.ok (false, false))
  else
    ([CmpStep.runCountQuery, CmpStep.runSampleQuery, CmpStep.checkFileExists,
      CmpStep.loadWorkbook], Except.error ())

/-- Result of `cur.execute` on the final query: `description` is the column
metadata (`None` when absent) and `fetched` is the `fetchall()` result, with
`none` modelling a falsy/`None` return defended against at source line 113. -/
structure CursorResult where
  description : Option (List String)
  fetched : Option (List Row)
deriving DecidableEq

/-- Whether a character list starts with the five characters `LIMIT`. -/
def startsWithLIMIT : List Char → Bool
  | a :: b :: c :: d :: e :: _ =>
    a == 'L' && b == 'I' && c == 'M' && d == 'I' && e == 'T'
  | _ => false

/-- Whether `LIMIT` occurs as a contiguous substring of a character list. -/
def containsLIMIT : List Char → Bool
  | [] => false
  | c :: t => startsWithLIMIT (c :: t) || containsLIMIT t

/-- Python `'LIMIT' in query.upper()` (source line 106): case-insensitive
substring search for `LIMIT`. -/
def queryHasLimit (q : String) : Bool :=
  containsLIMIT (q.data.map Char.toUpper)

/-- The `final_query` computed by `extract_data` (source lines 105-107): the
query unchanged when it already mentions `LIMIT`, otherwise the query with
`" LIMIT {limit}"` appended. -/
def final_query (query : String) (limit : Nat) : String :=
  if queryHasLimit query then query
  else query ++ " LIMIT " ++ toString limit

/-- The function `extract_data` (source lines 85-134), with the database
modelled as a function from the executed SQL text to a cursor outcome.  On
success it returns the column names from the description (`[]` when the
description is falsy, line 112) and the fetched rows (`[]` when falsy,
line 113); a database error is re-raised (lines 127-134). -/
def extract_data (db : String → Except Unit CursorResult) (query : String)
    (limit : Nat) : Except Unit (List String × List Row) :=
  match db (final_query query limit) with
  | Except.error e => Except.error e
  | Except.ok r => Except.ok (r.description.getD [], r.fetched.getD [])

/-- Fuel-indexed body of `batches`; the fuel starts at the list length, which
suffices because each iteration with a positive batch size consumes at least
one element. -/
def batchesAux {α : Type} (b : Nat) : Nat → List α → List (List α)
  | _, [] => []
  | 0, _ :: _ => []
  | fuel + 1, l => l.take b :: batchesAux b fuel (l.drop b)

/-- The slicing loop `for i in range(0, len(formatted_data), config.BATCH_SIZE):
batch = formatted_data[i:i + config.BATCH_SIZE]` (source lines 234-235), as the
list of successive batches.  For `b = 0` the Python `range` would raise
`ValueError`; that case is outside every claim (all assume a positive batch
size) and the embedding returns `[]` there. -/
def batches {α : Type} (b : Nat) (l : List α) : List (List α) :=
  batchesAux b l.length l

/-- Graph API calls issued by `load_to_excel_online`, one constructor per call
site: the table fetch (line 183), the table creation (line 200), the header-row
read (line 214), the header write — `rows.add.post` at line 218 — and the batch
append — `rows.add.post` at line 241. -/
inductive GraphCall where
  | getTable : GraphCall
  | createTable (address : String) (hasHeaders : Bool) (tname : String) : GraphCall
  | getHeaderRow : GraphCall
  | writeHeader (cols : List String) : GraphCall
  | appendRows (values : List Row) : GraphCall
deriving DecidableEq

/-- Environment for one `load_to_excel_online` run: whether the table fetch
finds the table, whether table creation succeeds, whether the header-row read
succeeds, whether the header row is already populated (`header_range` truthy
with truthy `values`, line 215), whether the header write succeeds, and whether
the k-th batch append succeeds. -/
structure GraphEnv where
  tableFound : Bool
  createOk : Bool
  headerGetOk : Bool
  headerPopulated : Bool
  headerWriteOk : Bool
  appendOk : Nat → Bool

/-- The range address computed at source line 190:
`f"A1:{chr(ord('A') + len(columns) - 1)}{len(data) + 1}"`.  Note the single
`chr` call: the end column is one character even when `len(columns)` exceeds
26. -/
def rangeAddress (columns : List String) (data : List Row) : String :=
  "A1:" ++ String.singleton (Char.ofNat ('A'.toNat + columns.length - 1)) ++
    toString (data.length + 1)

/-- Per-value formatting before upload (source lines 226-230): date/datetime
values are rendered with `strftime('%Y-%m-%d %H:%M:%S')`, everything else
passes through unchanged. -/
def formatValue : Value → Value
  | Value.vdate y mo d h mi s => Value.vother (strftimeYmdHMS y mo d h mi s)
  | v => v

/-- The `formatted_data` loop (source lines 224-231). -/
def formatData (data : List Row) : List Row :=
  data.map (fun row => row.map formatValue)

/-- The append loop (source lines 234-243): issue one `rows.add.post` per
batch; a failing append raises out of the loop after its call is made. -/
def runAppends (appendOk : Nat → Bool) : Nat → List (List Row) → List GraphCall × Bool
  | _, [] => ([], true)
  | k, b :: bs =>
    if appendOk k then
      let r := runAppends appendOk (k + 1) bs
      (GraphCall.appendRows b :: r.1, r.2)
    else
      ([GraphCall.appendRows b], false)

/-- Append phase of `load_to_excel_online`: format the data, slice it into
batches, and run the append loop (source lines 222-243). -/
def loadAppendPhase (env : GraphEnv) (acc : List GraphCall) (data : List Row)
    (batchSize : Nat) : List GraphCall × Bool :=
  let r := runAppends env.appendOk 0 (batches batchSize (formatData data))
  (acc ++ r.1, r.2)

/-- Header phase of `load_to_excel_online` (source lines 212-220): read the
header row; when it is empty or absent, write the column names (one
`rows.add.post` call) before any data append. -/
def loadAfterResolve (env : GraphEnv) (acc : List GraphCall) (columns : List String)
    (data : List Row) (batchSize : Nat) : List GraphCall × Bool :=
  if env.headerGetOk then
    if env.headerPopulated then
      loadAppendPhase env (acc ++ [GraphCall.getHeaderRow]) data batchSize
    else if env.headerWriteOk then
      loadAppendPhase env
        (acc ++ [GraphCall.getHeaderRow, GraphCall.writeHeader columns]) data batchSize
    else
      (acc ++ [GraphCall.getHeaderRow, GraphCall.writeHeader columns], false)
  else
    (acc ++ [GraphCall.getHeaderRow], false)

/-- The function `load_to_excel_online` (source lines 163-249) as a trace of
Graph API calls plus a success flag (`false` means the surrounding `try` block
re-raised, line 249).  The table fetch is attempted first; on not-found the
table is created at `rangeAddress` with headers enabled (lines 182-204); a
creation failure re-raises (line 204) before any header or append call. -/
def load_to_excel_online (env : GraphEnv) (tname : String) (columns : List String)
    (data : List Row) (batchSize : Nat) : List GraphCall × Bool :=
  if env.tableFound then
    loadAfterResolve env [GraphCall.getTable] columns data batchSize
  else if env.createOk then
    loadAfterResolve env
      [GraphCall.getTable, GraphCall.createTable (rangeAddress columns data) true tname]
      columns data batchSize
  else
    ([GraphCall.getTable, GraphCall.createTable (rangeAddress columns data) true tname],
      false)

/-- Whether a Graph call is the batch-append call of source line 241. -/
def isAppendCall : GraphCall → Bool
  | GraphCall.appendRows _ => true
  | _ => false

/-- Whether a Graph call is the table-creation call of source line 200. -/
def isCreateCall : GraphCall → Bool
  | GraphCall.createTable _ _ _ => true
  | _ => false

/-- Whether a Graph call is the header-write call of source line 218. -/
def isHeaderWrite : GraphCall → Bool
  | GraphCall.writeHeader _ => true
  | _ => false

/-- The payloads of the batch-append calls of a trace, in call order. -/
def appendedBatches : List GraphCall → List (List Row)
  | [] => []
  | GraphCall.appendRows v :: t => v :: appendedBatches t
  | _ :: t => appendedBatches t

/-- Steps of `main` (source lines 331-375), in source order: configuration
validation, connection, extraction, the write step of line 354, reconciliation
(line 357), the summary report (lines 360-365), and the `finally` close
(lines 369-372). -/
inductive MainStep where
  | validateStep : MainStep
  | connectStep : MainStep
  | extractStep : MainStep
  | writeStep : MainStep
  | reconcileStep : MainStep
  | reportStep : MainStep
  | closeStep : MainStep
deriving DecidableEq

/-- Environment for one run of `main`: whether `config.validate()` passes,
whether `get_db_connection` returns a connection, and whether `extract_data`
returns without raising. -/
structure MainEnv where
  configValid : Bool
  connectOk : Bool
  extractOk : Bool
deriving DecidableEq

/-- The function `main` (source lines 331-375) as the list of steps it reaches.
Validation failure returns before connecting (line 338); a failed connection
returns before the `try`/`finally` (line 345).  Once extraction succeeds,
line 354 evaluates the global name `load_to_excel`, which is defined nowhere in
the module (and `Config` has no `EXCEL_OUTPUT_FILE` attribute), so the write
step raises `NameError` unconditionally; the inner `except` logs it (line 368),
the `finally` closes the connection (line 371), and `main` returns normally —
reconciliation and the report are never reached.  The list return type records
that `main` itself never propagates an exception (outer handler, line 374). -/
def main (env : MainEnv) : List MainStep :=
  if env.configValid = false then
    [MainStep.validateStep]
  else if env.connectOk = false then
    [MainStep.validateStep, MainStep.connectStep]
  else if env.extractOk = false then
    [MainStep.validateStep, MainStep.connectStep, MainStep.extractStep, MainStep.closeStep]
  else
    [MainStep.validateStep, MainStep.connectStep, MainStep.extractStep,
      MainStep.writeStep, MainStep.closeStep]

/-- Fuel-indexed body of `a1ColumnLabel`. -/
def a1ColumnLabelAux : Nat → Nat → String
  | _, 0 => ""
  | 0, _ + 1 => ""
  | fuel + 1, n + 1 =>
    a1ColumnLabelAux fuel (n / 26) ++ String.singleton (Char.ofNat (65 + n % 26))

/-- Modelled from the spec: "a range address spanning all columns ... starting
at the top-left cell" presupposes the standard A1 column label, which
is bijective base-26: column 1 is `A`, column 26 is `Z`, column 27 is `AA`.
This definition exists only to compare the spec's wording with the source's
`rangeAddress`; it is not part of the program. -/
def a1ColumnLabel (n : Nat) : String :=
  a1ColumnLabelAux n n

/-- Modelled from the spec: the range address spanning all `nCols` columns and
`nRows` rows starting at the top-left cell `A1`. -/
def specSpanAddress (nCols nRows : Nat) : String :=
  "A1:" ++ a1ColumnLabel nCols ++ toString nRows

/-- Database stub used by concrete witnesses: every query succeeds, reports a
single column `id`, and fetches zero rows. -/
def dbEmpty : String → Except Unit CursorResult :=
  fun _ => Except.ok ⟨some ["id"], some []⟩

/-- Destination environment used by concrete witnesses: the table is found,
every call succeeds, and the header row is already populated. -/
def envAllOk : GraphEnv :=
  ⟨true, true, true, true, true, fun _ => true⟩

/-- A source result set of 250 rows, as in the batching scenario of the spec. -/
def data250 : List Row :=
  List.replicate 250 ([] : Row)

/-- A column list wider than the 26 columns a single `chr` call can address. -/
def cols27 : List String :=
  List.replicate 27 "c"

end DbToExcel

namespace DbToExcel

theorem batchesAux_flatten {α : Type} (b : Nat) (hb : 0 < b) :
    ∀ (fuel : Nat) (l : List α), l.length ≤ fuel → (batchesAux b fuel l).flatten = l := by
  intro fuel
  induction fuel with
  | zero =>
    intro l hl
    cases l with
    | nil => rfl
    | cons x xs => simp at hl
  | succ n ih =>
    intro l hl
    cases l with
    | nil => rfl
    | cons x xs =>
      show (List.take b (x :: xs) :: batchesAux b n (List.drop b (x :: xs))).flatten
        = x :: xs
      rw [List.flatten_cons, ih _ (by simp only [List.length_drop, List.length_cons]; simp only [List.length_cons] at hl; omega)]
      exact List.take_append_drop b (x :: xs)

theorem batchesAux_length {α : Type} (b : Nat) (hb : 0 < b) :
    ∀ (fuel : Nat) (l : List α), l.length ≤ fuel →
      (batchesAux b fuel l).length = (l.length + b - 1) / b := by
  intro fuel
  induction fuel with
  | zero =>
    intro l hl
    cases l with
    | nil =>
      show 0 = (0 + b - 1) / b
      rw [Nat.div_eq_of_lt (by omega)]
    | cons x xs => simp at hl
  | succ n ih =>
    intro l hl
    cases l with
    | nil =>
      show 0 = (0 + b - 1) / b
      rw [Nat.div_eq_of_lt (by omega)]
    | cons x xs =>
      show (List.take b (x :: xs) :: batchesAux b n (List.drop b (x :: xs))).length = _
      simp only [List.length_cons]
      rw [ih _ (by simp only [List.length_drop, List.length_cons]; simp only [List.length_cons] at hl; omega)]
      simp only [List.length_drop, List.length_cons]
      have h1 : xs.length + 1 + b - 1 = xs.length + b := by omega
      rw [h1, Nat.add_div_right _ hb]
      congr 1
      rcases le_or_lt b (xs.length + 1) with hc | hc
      · have h2 : xs.length + 1 - b + b - 1 = xs.length := by omega
        rw [h2]
      · have h2 : xs.length + 1 - b + b - 1 = b - 1 := by omega
        rw [h2, Nat.div_eq_of_lt (by omega), Nat.div_eq_of_lt (by omega)]

theorem batches_flatten {α : Type} (b : Nat) (hb : 0 < b) (l : List α) :
    (batches b l).flatten = l :=
  batchesAux_flatten b hb l.length l (Nat.le_refl _)

theorem batches_length {α : Type} (b : Nat) (hb : 0 < b) (l : List α) :
    (batches b l).length = (l.length + b - 1) / b :=
  batchesAux_length b hb l.length l (Nat.le_refl _)

theorem runAppends_ok (f : Nat → Bool) (hf : ∀ k, f k = true) :
    ∀ (k : Nat) (bs : List (List Row)),
      runAppends f k bs = (bs.map GraphCall.appendRows, true) := by
  intro k bs
  induction bs generalizing k with
  | nil => rfl
  | cons b t ih => simp [runAppends, hf k, ih]

theorem runAppends_filter_create (f : Nat → Bool) (k : Nat) (bs : List (List Row)) :
    (runAppends f k bs).1.filter isCreateCall = [] := by
  induction bs generalizing k with
  | nil => rfl
  | cons b t ih =>
    cases hfk : f k <;> simp [runAppends, hfk, isCreateCall, ih]

theorem runAppends_filter_header (f : Nat → Bool) (k : Nat) (bs : List (List Row)) :
    (runAppends f k bs).1.filter isHeaderWrite = [] := by
  induction bs generalizing k with
  | nil => rfl
  | cons b t ih =>
    cases hfk : f k <;> simp [runAppends, hfk, isHeaderWrite, ih]

theorem appendedBatches_append (l₁ l₂ : List GraphCall) :
    appendedBatches (l₁ ++ l₂) = appendedBatches l₁ ++ appendedBatches l₂ := by
  induction l₁ with
  | nil => rfl
  | cons c t ih => cases c <;> simp [appendedBatches, ih]

theorem appendedBatches_map (bs : List (List Row)) :
    appendedBatches (bs.map GraphCall.appendRows) = bs := by
  induction bs with
  | nil => rfl
  | cons b t ih => simp [appendedBatches, ih]

theorem containsLIMIT_append_of_right (s t : List Char) (h : containsLIMIT t = true) :
    containsLIMIT (s ++ t) = true := by
  induction s with
  | nil => simpa using h
  | cons c cs ih => simp [containsLIMIT, ih]

theorem containsLIMIT_block (rest : List Char) :
    containsLIMIT (' ' :: 'L' :: 'I' :: 'M' :: 'I' :: 'T' :: rest) = true := rfl

theorem queryHasLimit_appended (q : String) (limit : Nat) :
    queryHasLimit (q ++ " LIMIT " ++ toString limit) = true := by
  show containsLIMIT ((q ++ " LIMIT " ++ toString limit).data.map Char.toUpper) = true
  rw [String.data_append, String.data_append, List.append_assoc, List.map_append]
  apply containsLIMIT_append_of_right
  rw [List.map_append]
  have hlit : (" LIMIT ").data.map Char.toUpper = [' ', 'L', 'I', 'M', 'I', 'T', ' '] := by
    decide
  rw [hlit]
  exact containsLIMIT_block _

/-- C1: in every run where validation, connection and extraction succeed, the
write step of `main` is reached but raises at once (`load_to_excel` is an
undefined name and `Config` has no `EXCEL_OUTPUT_FILE`), so — contrary to the
claimed write → reconcile → report sequencing — reconciliation and the summary
report are never executed; only the `finally` close runs afterwards. -/
theorem main_write_step_aborts :
    main ⟨true, true, true⟩ =
      [MainStep.validateStep, MainStep.connectStep, MainStep.extractStep,
        MainStep.writeStep, MainStep.closeStep] ∧
    MainStep.reconcileStep ∉ main ⟨true, true, true⟩ ∧
    MainStep.reportStep ∉ main ⟨true, true, true⟩ := by
  decide

/-- C8: whenever the database connection is acquired, the trace of `main` ends
with the connection-close step, on every exit path (extraction failing or the
write step raising included); `main` always returns a trace, i.e. it never
re-raises to its caller. -/
theorem connection_closed_on_all_paths (env : MainEnv)
    (hv : env.configValid = true) (hc : env.connectOk = true) :
    (main env).getLast? = some MainStep.closeStep := by
  obtain ⟨v, c, e⟩ := env
  simp only at hv hc
  subst hv
  subst hc
  cases e <;> rfl

/-- Witness for C8 at a concrete run whose extraction fails. -/
theorem connection_closed_on_all_paths_witness :
    (main ⟨true, true, false⟩).getLast? = some MainStep.closeStep :=
  connection_closed_on_all_paths ⟨true, true, false⟩ rfl rfl

/-- C3: `normalize_value` is total on scalar values — `None` maps to the empty
string, every date/datetime maps to its `'%Y-%m-%d %H:%M:%S'` rendering (shown
concretely on 2024-03-07 15:04:05), every other value maps to its string form —
and the sample comparison of `compare_data` applies the very same normalization
(`normalizeRows`) to the source rows and to the destination rows. -/
theorem normalize_value_total_spec :
    normalize_value Value.vnone = "" ∧
    (∀ y mo d h mi s, normalize_value (Value.vdate y mo d h mi s) =
      strftimeYmdHMS y mo d h mi s) ∧
    normalize_value (Value.vdate 2024 3 7 15 4 5) = "2024-03-07 15:04:05" ∧
    (∀ s, normalize_value (Value.vother s) = s) ∧
    (∀ c db5 ex, (compareLoaded c db5 ex).2 =
      (normalizeRows db5 == normalizeRows (ex.take 5))) :=
  ⟨rfl, fun _ _ _ _ _ _ => rfl, by decide, fun _ => rfl, fun _ _ _ => rfl⟩

/-- C4 (code bug): when both source-side queries succeed and the Excel file
exists, `compare_data` raises (the `openpyxl` name is never imported) right
after the file-existence check, so it never completes and never returns the
claimed pair of comparison booleans. -/
theorem compare_data_raises_when_file_exists :
    (compare_data ⟨true, true, true⟩).2 = Except.error () ∧
    (compare_data ⟨true, true, true⟩).1 =
      [CmpStep.runCountQuery, CmpStep.runSampleQuery, CmpStep.checkFileExists,
        CmpStep.loadWorkbook] :=
  ⟨rfl, rfl⟩

/-- C5: with the destination file missing, `compare_data` returns
`(false, false)` without raising, after running both source-side queries and
the existence check; a failure of either source query, or any error once the
file exists, propagates as an exception. -/
theorem compare_data_missing_file_spec (env : CmpEnv) :
    (env.countOk = true → env.sampleOk = true → env.fileExists = false →
      compare_data env =
        ([CmpStep.runCountQuery, CmpStep.runSampleQuery, CmpStep.checkFileExists],
          Except.ok (false, false))) ∧
    (env.countOk = false → (compare_data env).2 = Except.error ()) ∧
    (env.countOk = true → env.sampleOk = false →
      (compare_data env).2 = Except.error ()) ∧
    (env.countOk = true → env.sampleOk = true → env.fileExists = true →
      (compare_data env).2 = Except.error ()) := by
  obtain ⟨c, s, f⟩ := env
  cases c <;> cases s <;> cases f <;> simp [compare_data]

/-- Witness for C5 at a concrete call with the destination file missing. -/
theorem compare_data_missing_file_spec_witness :
    compare_data ⟨true, true, false⟩ =
      ([CmpStep.runCountQuery, CmpStep.runSampleQuery, CmpStep.checkFileExists],
        Except.ok (false, false)) :=
  (compare_data_missing_file_spec ⟨true, true, false⟩).1 rfl rfl rfl

/-- C9 counterexample: a source whose query yields 0 rows but reports a column
in the cursor description makes `extract_data` return `(["id"], [])`, which is
not the claimed `([], [])`. -/
theorem extract_empty_returns_columns_cex :
    extract_data dbEmpty "SELECT * FROM product_requests" 1000 =
      Except.ok (["id"], ([] : List Row)) ∧
    ((["id"], ([] : List Row)) : List String × List Row) ≠ ([], []) :=
  ⟨rfl, by decide⟩

/-- C9 as amended: on a query yielding 0 rows, `extract_data` returns the
column list taken from the cursor description (empty only when the description
is absent) paired with the empty row list, without raising; and the destination
append loop on an empty row list issues zero append calls. -/
theorem extract_empty_amended (db : String → Except Unit CursorResult)
    (query : String) (limit : Nat) (r : CursorResult)
    (h : db (final_query query limit) = Except.ok r) (hf : r.fetched = some []) :
    extract_data db query limit = Except.ok (r.description.getD [], ([] : List Row)) ∧
    (∀ (env : GraphEnv) (tname : String) (cols : List String) (B : Nat),
      (load_to_excel_online env tname cols [] B).1.filter isAppendCall = []) := by
  constructor
  · simp [extract_data, h, hf]
  · intro env tname cols B
    cases htf : env.tableFound <;> cases hco : env.createOk <;>
      cases hhg : env.headerGetOk <;> cases hhp : env.headerPopulated <;>
        cases hhw : env.headerWriteOk <;>
          simp [load_to_excel_online, loadAfterResolve, loadAppendPhase, htf, hco,
            hhg, hhp, hhw, batches, batchesAux, formatData, runAppends, isAppendCall]

/-- Witness for the amended C9 at a concrete empty source. -/
theorem extract_empty_amended_witness :
    extract_data dbEmpty "SELECT 1" 5 = Except.ok (["id"], ([] : List Row)) ∧
    (load_to_excel_online envAllOk "Table1" ["id"] [] 100).1.filter isAppendCall
      = [] := by
  have h := extract_empty_amended dbEmpty "SELECT 1" 5 ⟨some ["id"], some []⟩ rfl rfl
  exact ⟨h.1, h.2 envAllOk "Table1" ["id"] 100⟩

/-- C10: `extract_data` executes exactly `final_query`, which is the original
query when it already contains a limit clause (Python's case-insensitive
substring test for `LIMIT`) and the query with `" LIMIT {limit}"` appended
otherwise — the appended form does contain a limit clause — and on success it
returns the cursor's column names together with the full fetched result set of
that executed query. -/
theorem extract_limit_clause_spec (db : String → Except Unit CursorResult)
    (query : String) (limit : Nat) (r : CursorResult)
    (h : db (final_query query limit) = Except.ok r) :
    extract_data db query limit =
      Except.ok (r.description.getD [], r.fetched.getD []) ∧
    (queryHasLimit query = true → final_query query limit = query) ∧
    (queryHasLimit query = false →
      final_query query limit = query ++ " LIMIT " ++ toString limit ∧
      queryHasLimit (final_query query limit) = true) := by
  refine ⟨by simp [extract_data, h], fun hq => by simp [final_query, hq], fun hq => ?_⟩
  have he : final_query query limit = query ++ " LIMIT " ++ toString limit := by
    simp [final_query, hq]
  exact ⟨he, he ▸ queryHasLimit_appended query limit⟩

/-- Witness for C10 at a concrete query without a limit clause. -/
theorem extract_limit_clause_spec_witness :
    extract_data dbEmpty "SELECT * FROM product_requests" 1000 =
      Except.ok (["id"], ([] : List Row)) ∧
    final_query "SELECT * FROM product_requests" 1000 =
      "SELECT * FROM product_requests LIMIT 1000" := by
  have h := extract_limit_clause_spec dbEmpty "SELECT * FROM product_requests" 1000
    ⟨some ["id"], some []⟩ rfl
  refine ⟨h.1, ?_⟩
  rw [(h.2.2 (by decide)).1]
  decide

/-- C6 counterexample: with 27 extracted columns and a missing table, the
single create call uses the address `A1:[1` (`chr(ord('A') + 26)` is `[`),
whereas the address spanning all 27 columns and 1 row from `A1` is `A1:AA1`;
the created range therefore does not span all `len(columns)` columns. -/
theorem create_range_not_spanning_27_cols :
    (load_to_excel_online ⟨false, true, true, true, true, fun _ => true⟩ "Table1"
        cols27 ([] : List Row) 100).1.filter isCreateCall =
      [GraphCall.createTable "A1:[1" true "Table1"] ∧
    specSpanAddress cols27.length (([] : List Row).length + 1) = "A1:AA1" ∧
    ("A1:[1" : String) ≠ "A1:AA1" := by
  decide

/-- C6 as amended: on table-not-found exactly one create call is issued, before
any append call, with headers enabled, the configured table name, and the
address `"A1:" ++ chr(ord('A') + len(columns) - 1) ++ str(len(data) + 1)` —
an address that spans all columns exactly when `1 ≤ len(columns) ≤ 26`; when
the table is found no create call occurs; and a failing create call aborts the
write with no append call issued. -/
theorem create_table_resolution_amended (env : GraphEnv) (tname : String)
    (cols : List String) (data : List Row) (B : Nat) :
    (env.tableFound = true →
      (load_to_excel_online env tname cols data B).1.filter isCreateCall = []) ∧
    (env.tableFound = false →
      (load_to_excel_online env tname cols data B).1.filter isCreateCall =
        [GraphCall.createTable (rangeAddress cols data) true tname] ∧
      ((load_to_excel_online env tname cols data B).1.filter
          (fun c => isCreateCall c || isAppendCall c)).head? =
        some (GraphCall.createTable (rangeAddress cols data) true tname) ∧
      (env.createOk = false →
        (load_to_excel_online env tname cols data B).2 = false ∧
        (load_to_excel_online env tname cols data B).1.filter isAppendCall = [])) ∧
    (1 ≤ cols.length → cols.length ≤ 26 →
      rangeAddress cols data =
        "A1:" ++ a1ColumnLabel cols.length ++ toString (data.length + 1)) := by
  refine ⟨?_, ?_, ?_⟩
  · intro htf
    cases hhg : env.headerGetOk <;> cases hhp : env.headerPopulated <;>
      cases hhw : env.headerWriteOk <;>
        simp [load_to_excel_online, loadAfterResolve, loadAppendPhase, htf, hhg, hhp,
          hhw, isCreateCall, List.filter_append, runAppends_filter_create]
  · intro htf
    cases hco : env.createOk <;> cases hhg : env.headerGetOk <;>
      cases hhp : env.headerPopulated <;> cases hhw : env.headerWriteOk <;>
        simp [load_to_excel_online, loadAfterResolve, loadAppendPhase, htf, hco, hhg,
          hhp, hhw, isCreateCall, isAppendCall, List.filter_append,
          runAppends_filter_create]
  · intro h1 h2
    have ha1 : ∀ n, n < 27 → 1 ≤ n →
        a1ColumnLabel n = String.singleton (Char.ofNat (64 + n)) := by decide
    have hA : 'A'.toNat + cols.length - 1 = 64 + cols.length := by
      have h65 : 'A'.toNat = 65 := rfl
      omega
    simp [rangeAddress, hA, ha1 cols.length (by omega) h1]

/-- Witness for the amended C6 at a concrete two-column run with a missing
table. -/
theorem create_table_resolution_amended_witness :
    (load_to_excel_online ⟨false, true, true, true, true, fun _ => true⟩ "Table1"
        ["a", "b"] ([] : List Row) 100).1.filter isCreateCall =
      [GraphCall.createTable "A1:B1" true "Table1"] ∧
    rangeAddress ["a", "b"] ([] : List Row) =
      "A1:" ++ a1ColumnLabel (["a", "b"] : List String).length ++
        toString (([] : List Row).length + 1) := by
  have h := create_table_resolution_amended
    ⟨false, true, true, true, true, fun _ => true⟩ "Table1" ["a", "b"]
    ([] : List Row) 100
  constructor
  · rw [(h.2.1 rfl).1]
    decide
  · exact h.2.2 (by decide) (by decide)

/-- C7: once the table is resolved and the header row has been read, a
populated header row leads to no header-write call, and an empty or absent
header row leads to exactly one header-write call carrying the extracted column
names in order, issued before any data-append call. -/
theorem header_write_spec (env : GraphEnv) (tname : String) (cols : List String)
    (data : List Row) (B : Nat)
    (hres : env.tableFound = true ∨ env.createOk = true)
    (hget : env.headerGetOk = true) :
    (env.headerPopulated = true →
      (load_to_excel_online env tname cols data B).1.filter isHeaderWrite = []) ∧
    (env.headerPopulated = false →
      (load_to_excel_online env tname cols data B).1.filter isHeaderWrite =
        [GraphCall.writeHeader cols] ∧
      ((load_to_excel_online env tname cols data B).1.filter
          (fun c => isHeaderWrite c || isAppendCall c)).head? =
        some (GraphCall.writeHeader cols)) := by
  rcases hres with htf | hco
  · constructor
    · intro hhp
      cases hco : env.createOk <;> cases hhw : env.headerWriteOk <;>
        simp [load_to_excel_online, loadAfterResolve, loadAppendPhase, htf, hco, hget,
          hhp, hhw, isHeaderWrite, List.filter_append, runAppends_filter_header]
    · intro hhp
      cases hco : env.createOk <;> cases hhw : env.headerWriteOk <;>
        simp [load_to_excel_online, loadAfterResolve, loadAppendPhase, htf, hco, hget,
          hhp, hhw, isHeaderWrite, isAppendCall, List.filter_append,
          runAppends_filter_header]
  · constructor
    · intro hhp
      cases htf : env.tableFound <;> cases hhw : env.headerWriteOk <;>
        simp [load_to_excel_online, loadAfterResolve, loadAppendPhase, htf, hco, hget,
          hhp, hhw, isHeaderWrite, List.filter_append, runAppends_filter_header]
    · intro hhp
      cases htf : env.tableFound <;> cases hhw : env.headerWriteOk <;>
        simp [load_to_excel_online, loadAfterResolve, loadAppendPhase, htf, hco, hget,
          hhp, hhw, isHeaderWrite, isAppendCall, List.filter_append,
          runAppends_filter_header]

/-- Witness for C7 at a concrete run whose header row is empty. -/
theorem header_write_spec_witness :
    (load_to_excel_online ⟨true, true, true, false, true, fun _ => true⟩ "Table1"
        ["id"] ([] : List Row) 100).1.filter isHeaderWrite =
      [GraphCall.writeHeader ["id"]] :=
  ((header_write_spec ⟨true, true, true, false, true, fun _ => true⟩ "Table1" ["id"]
    ([] : List Row) 100 (Or.inl rfl) rfl).2 rfl).1

/-- C2: whenever the append loop is reached and every append call succeeds, the
loop issues exactly `ceil(N / B) = (N + B - 1) / B` append calls for `N` input
rows and batch size `B > 0`, and the concatenation of the appended batches in
call order is exactly the formatted input row list — every row once, in the
original order. -/
theorem append_loop_batches_exact (env : GraphEnv) (tname : String)
    (cols : List String) (data : List Row) (B : Nat) (hB : 0 < B)
    (hres : env.tableFound = true ∨ env.createOk = true)
    (hget : env.headerGetOk = true)
    (hwr : env.headerPopulated = true ∨ env.headerWriteOk = true)
    (hap : ∀ k, env.appendOk k = true) :
    appendedBatches (load_to_excel_online env tname cols data B).1 =
      batches B (formatData data) ∧
    (appendedBatches (load_to_excel_online env tname cols data B).1).length =
      (data.length + B - 1) / B ∧
    (appendedBatches (load_to_excel_online env tname cols data B).1).flatten =
      formatData data := by
  have hr : ∀ k bs, runAppends env.appendOk k bs = (bs.map GraphCall.appendRows, true) :=
    runAppends_ok env.appendOk hap
  have key : appendedBatches (load_to_excel_online env tname cols data B).1 =
      batches B (formatData data) := by
    rcases hres with htf | hco
    · rcases hwr with hhp | hhw
      · simp [load_to_excel_online, loadAfterResolve, loadAppendPhase, htf, hget, hhp,
          hr, appendedBatches_append, appendedBatches, appendedBatches_map]
      · cases hhp : env.headerPopulated <;>
          simp [load_to_excel_online, loadAfterResolve, loadAppendPhase, htf, hget,
            hhp, hhw, hr, appendedBatches_append, appendedBatches, appendedBatches_map]
    · rcases hwr with hhp | hhw
      · cases htf : env.tableFound <;>
          simp [load_to_excel_online, loadAfterResolve, loadAppendPhase, htf, hco,
            hget, hhp, hr, appendedBatches_append, appendedBatches, appendedBatches_map]
      · cases htf : env.tableFound <;> cases hhp : env.headerPopulated <;>
          simp [load_to_excel_online, loadAfterResolve, loadAppendPhase, htf, hco,
            hget, hhp, hhw, hr, appendedBatches_append, appendedBatches,
            appendedBatches_map]
  refine ⟨key, ?_, ?_⟩
  · rw [key, batches_length B hB]
    simp [formatData]
  · rw [key]
    exact batches_flatten B hB _

set_option maxRecDepth 20000 in
/-- Witness for C2 at the spec's scenario: 250 source rows and batch size 100
yield exactly 3 append calls of sizes 100, 100 and 50, which concatenate back
to the formatted input. -/
theorem append_loop_batches_exact_witness :
    (appendedBatches (load_to_excel_online envAllOk "Table1" ["id"] data250
        100).1).length = 3 ∧
    (appendedBatches (load_to_excel_online envAllOk "Table1" ["id"] data250
        100).1).flatten = formatData data250 ∧
    (appendedBatches (load_to_excel_online envAllOk "Table1" ["id"] data250
        100).1).map List.length = [100, 100, 50] := by
  have h := append_loop_batches_exact envAllOk "Table1" ["id"] data250 100
    (by decide) (Or.inl rfl) rfl (Or.inl rfl) (fun _ => rfl)
  refine ⟨?_, h.2.2, ?_⟩
  · rw [h.2.1]
    decide
  · rw [h.1]
    decide

end DbToExcel
